import Mathlib

/-!
Verification of the LUXBIN entanglement protocol stack design and of the
multi-agent chat component.

The entanglement protocol stack (backend adapter, fidelity estimator,
NV-center entanglement protocol, Bell pair generator, GHZ state generator,
teleportation protocol) is shipped as the `luxbin.quantum.entanglement`
Python package, which is not present in this source tree; only its
documentation (`protocols/README.md`) and usage examples are.  Those
components are therefore modelled from the design document, and each such
definition carries a doc comment starting with `Modelled from the spec:`.

The multi-agent chat component (`components/MultiAgentChat.js`) is present
in the tree and is embedded directly from its source.
-/

/-- Modelled from the spec: a provider-neutral gate operation over qubit
indices, part of the circuit description accepted by the Backend Adapter
(the `luxbin.quantum` backend layer is missing from this tree). -/
inductive Gate
  | H (q : Nat)
  | X (q : Nat)
  | Z (q : Nat)
  | CNOT (c t : Nat)
  | Measure (q : Nat)
deriving DecidableEq

/-- Modelled from the spec: a circuit description is an ordered list of gate
operations over qubit indices plus measurement instructions, over a declared
register size. -/
structure Circuit where
  numQubits : Nat
  ops : List Gate
deriving DecidableEq

/-- Modelled from the spec: measurement-outcome counts, a mapping from each
observed outcome bitstring to its occurrence count (insertion order
irrelevant). -/
abbrev OutcomeCounts := List (List Bool × Nat)

/-- Modelled from the spec: the error taxonomy of §7 — `BackendUnavailable`
(transient), `InvalidCircuit` (never retried), `CapacityExceeded` (surfaced
immediately), plus rejection of invalid caller input such as a GHZ party
count below 2. -/
inductive ProtocolError
  | BackendUnavailable
  | InvalidCircuit
  | CapacityExceeded
  | InvalidInput
deriving DecidableEq

/-- Modelled from the spec: the backend capability descriptor — a handle
exposing `submit(circuit, shots) → counts` and a max-qubit capability. -/
structure Backend where
  maxQubits : Nat
  submitFn : Circuit → Nat → Except ProtocolError OutcomeCounts

/-- Total number of shots recorded in an outcome-count mapping. -/
def totalShots (counts : OutcomeCounts) : Nat :=
  (counts.map Prod.snd).sum

/-- Number of shots whose outcome matches (is consistent with) the expected
correlation pattern. -/
def matchedShots (counts : OutcomeCounts) (pat : List Bool → Bool) : Nat :=
  ((counts.filter (fun p => pat p.1)).map Prod.snd).sum

/-- Modelled from the spec: the Fidelity Estimator contract
`estimate(outcomeCounts, expectedPattern) → fidelity ∈ [0,1]` — the fraction
of shots whose outcome matches the expected correlation pattern, normalized
by total shots.  A pure function of its inputs (the `luxbin.quantum`
estimator module is missing from this tree). -/
def estimate (counts : OutcomeCounts) (expectedPattern : List Bool → Bool) : ℚ :=
  (matchedShots counts expectedPattern : ℚ) / (totalShots counts : ℚ)

/-- Modelled from the spec: the Bell fidelity threshold, default 0.7. -/
def bellFidelityThreshold : ℚ := 7/10

/-- Modelled from the spec: the default shot count, 1024. -/
def defaultShotCount : Nat := 1024

/-- Modelled from the spec: one of the four fixed Bell-state variants. -/
inductive BellState
  | PhiPlus
  | PhiMinus
  | PsiPlus
  | PsiMinus
deriving DecidableEq

/-- Modelled from the spec: basis-flip gates selecting among the four Bell
variants on top of the H + CNOT preparation pattern. -/
def bellFlips (st : BellState) : List Gate :=
  match st with
  | .PhiPlus => []
  | .PhiMinus => [Gate.Z 0]
  | .PsiPlus => [Gate.X 1]
  | .PsiMinus => [Gate.Z 0, Gate.X 1]

/-- Modelled from the spec: the two-qubit circuit preparing the requested
Bell state (H + CNOT pattern with basis-flip gates), then measuring both
qubits. -/
def bellCircuit (st : BellState) : Circuit :=
  ⟨2, [Gate.H 0, Gate.CNOT 0 1] ++ bellFlips st ++ [Gate.Measure 0, Gate.Measure 1]⟩

/-- Modelled from the spec: the expected correlation pattern of each Bell
state — Φ variants are correlated (00/11), Ψ variants anti-correlated
(01/10). -/
def bellPattern (st : BellState) : List Bool → Bool :=
  match st with
  | .PhiPlus => fun o => o == [false, false] || o == [true, true]
  | .PhiMinus => fun o => o == [false, false] || o == [true, true]
  | .PsiPlus => fun o => o == [false, true] || o == [true, false]
  | .PsiMinus => fun o => o == [false, true] || o == [true, false]

/-- Modelled from the spec: `BellPairResult` — the BellState tag, measured
counts, computed fidelity in [0,1], and the pass/fail verdict against the
0.7 threshold. -/
structure BellPairResult where
  state : BellState
  counts : OutcomeCounts
  fidelity : ℚ
  passed : Bool
deriving DecidableEq

/-- Modelled from the spec: `createBellPair(targetState) → BellPairResult` —
builds the Bell circuit, submits it with the fixed default shot count
through the Backend Adapter, passes the counts to the Fidelity Estimator
with the Bell state's expected correlation pattern, and returns the result
with its pass/fail verdict (a below-threshold fidelity is a valid terminal
result, not an error). -/
def createBellPair (b : Backend) (targetState : BellState) :
    Except ProtocolError BellPairResult :=
  match b.submitFn (bellCircuit targetState) defaultShotCount with
  | .error e => .error e
  | .ok counts =>
      let f := estimate counts (bellPattern targetState)
      .ok ⟨targetState, counts, f, decide (bellFidelityThreshold ≤ f)⟩

/-- Modelled from the spec: the n-qubit GHZ circuit — H on qubit 0, chained
CNOTs to the remaining n−1 qubits, then measurement of all n qubits. -/
def ghzCircuit (n : Nat) : Circuit :=
  ⟨n, Gate.H 0 :: ((List.range (n - 1)).map (fun i => Gate.CNOT i (i + 1))
        ++ (List.range n).map Gate.Measure)⟩

/-- Modelled from the spec: the all-zeros/all-ones correlation pattern of an
n-party GHZ state. -/
def ghzPattern (n : Nat) : List Bool → Bool :=
  fun o => o == List.replicate n false || o == List.replicate n true

/-- Modelled from the spec: `GHZResult` — party count n ≥ 2, measured counts
over n-bit outcomes, computed fidelity, and the verdict against the
threshold.  The secondary Shannon-entropy signal of §4.5 is not modelled:
no claim under verification depends on it and its value is irrational. -/
structure GHZResult where
  partyCount : Nat
  counts : OutcomeCounts
  fidelity : ℚ
  passed : Bool
deriving DecidableEq

/-- Modelled from the spec: `createGHZState(partyCount: n≥2) → GHZResult` —
rejects party counts below 2 as invalid input, signals `CapacityExceeded`
without submitting when n exceeds the backend's max-qubit capability, and
otherwise submits the GHZ circuit with a shot count scaled to n and
computes fidelity against the all-zeros/all-ones pattern.  Alongside the
result, the list of backend submissions performed is returned so that the
"without any backend submission" failure condition is observable. -/
def createGHZState (b : Backend) (n : Nat) :
    Except ProtocolError GHZResult × List (Circuit × Nat) :=
  if n < 2 then (.error .InvalidInput, [])
  else if b.maxQubits < n then (.error .CapacityExceeded, [])
  else
    match b.submitFn (ghzCircuit n) (defaultShotCount * n) with
    | .error e => (.error e, [(ghzCircuit n, defaultShotCount * n)])
    | .ok counts =>
        let f := estimate counts (ghzPattern n)
        (.ok ⟨n, counts, f, decide (bellFidelityThreshold ≤ f)⟩,
         [(ghzCircuit n, defaultShotCount * n)])

/-- Modelled from the spec: a deterministic pseudo-random generator (32-bit
linear congruential step) seeding the local statistical simulator, so that a
fixed seed makes repeated invocations reproducible. -/
def lcgNext (s : Nat) : Nat :=
  (1664525 * s + 1013904223) % 4294967296

/-- Modelled from the spec: draw `n` pseudo-random measurement bits,
returning them with the advanced generator state. -/
def randBits : Nat → Nat → List Bool × Nat
  | 0, s => ([], s)
  | n + 1, s =>
      let s2 := lcgNext s
      let r := randBits n s2
      ((s2 % 2 == 1) :: r.1, r.2)

/-- Modelled from the spec: one shot of the local statistical simulator —
one full circuit execution producing one measurement outcome over the
declared register.  The spec fixes only the submit contract (counts summing
to the shot count, deterministic under a fixed seed), so outcomes are drawn
from the seeded generator. -/
def simulateShot (c : Circuit) (s : Nat) : List Bool × Nat :=
  randBits c.numQubits s

/-- Modelled from the spec: the per-shot outcomes of a simulated execution,
threading the generator state shot by shot. -/
def runShots (c : Circuit) : Nat → Nat → List (List Bool)
  | 0, _ => []
  | n + 1, s =>
      let r := simulateShot c s
      r.1 :: runShots c n r.2

/-- Insert one observed outcome into an outcome-count mapping. -/
def addOutcome (counts : OutcomeCounts) (o : List Bool) : OutcomeCounts :=
  match counts with
  | [] => [(o, 1)]
  | (k, v) :: rest =>
      if k == o then (k, v + 1) :: rest else (k, v) :: addOutcome rest o

/-- Tally a list of per-shot outcomes into an outcome-count mapping. -/
def tally (os : List (List Bool)) : OutcomeCounts :=
  os.foldl addOutcome []

/-- Modelled from the spec: the local statistical simulator provider's
`submit(circuitDescription, shotCount) → outcomeCounts`, deterministic given
the configured random seed. -/
def submitSim (c : Circuit) (shots seed : Nat) : OutcomeCounts :=
  tally (runShots c shots seed)

/-- Modelled from the spec: the simulator-backed Backend Adapter with the
given fixed random seed and max-qubit capability. -/
def simBackend (seed maxQ : Nat) : Backend :=
  ⟨maxQ, fun c shots => .ok (submitSim c shots seed)⟩

/-- Modelled from the spec: a backend stub returning fixed counts for every
submission, used to exercise the protocol layer at chosen statistics. -/
def constBackend (counts : OutcomeCounts) : Backend :=
  ⟨32, fun _ _ => .ok counts⟩

/-- Modelled from the spec: `TeleportationResult` — source node id,
destination node id, the two classical bits produced by the Bell
measurement, and a success flag; the teleported state itself is never
stored. -/
structure TeleportationResult where
  sourceNode : String
  destNode : String
  classicalBits : Bool × Bool
  success : Bool
deriving DecidableEq

/-- Modelled from the spec: preparation gates of the single-qubit state to
teleport, on the separate state qubit 0. -/
def statePrep (stateLabel : String) : List Gate :=
  if stateLabel == "one" then [Gate.X 0]
  else if stateLabel == "plus" then [Gate.H 0]
  else []

/-- Modelled from the spec: the teleportation circuit — Bell-pair
preparation across qubits 1 and 2 (source half and destination),
Bell-measurement-style joint gates between the state qubit 0 and the
source's half of the pair, and measurement producing the two classical bits
plus the destination qubit's statistics. -/
def teleportCircuit (stateLabel : String) : Circuit :=
  ⟨3, statePrep stateLabel
        ++ [Gate.H 1, Gate.CNOT 1 2, Gate.CNOT 0 1, Gate.H 0,
            Gate.Measure 0, Gate.Measure 1, Gate.Measure 2]⟩

/-- Modelled from the spec: the expected destination-qubit distribution of
the originally prepared state — basis states pin the destination bit,
superposition states accept both outcomes. -/
def teleportPattern (stateLabel : String) : List Bool → Bool :=
  fun o =>
    if stateLabel == "zero" then (o.drop 2).headD false == false
    else if stateLabel == "one" then (o.drop 2).headD false == true
    else true

/-- The two classical bits produced by the Bell measurement, read from the
first recorded outcome. -/
def extractBits (counts : OutcomeCounts) : Bool × Bool :=
  match counts with
  | [] => (false, false)
  | (o, _) :: _ => (o.headD false, (o.drop 1).headD false)

/-- Modelled from the spec: `teleport(stateLabel, sourceNode,
destinationNode) → TeleportationResult` — obtains one ΦPlus Bell pair via
the Bell pair generator, runs the teleportation circuit, extracts the two
classical bits, computes the destination-distribution fidelity check, and —
per the documented design limitation — reports success unconditionally,
regardless of the outcome of that check (no loss model is applied). -/
def teleport (b : Backend) (stateLabel sourceNode destinationNode : String) :
    Except ProtocolError TeleportationResult :=
  match createBellPair b BellState.PhiPlus with
  | .error e => .error e
  | .ok _bellPair =>
      match b.submitFn (teleportCircuit stateLabel) defaultShotCount with
      | .error e => .error e
      | .ok counts =>
          let bits := extractBits counts
          let _distCheck :=
            decide (bellFidelityThreshold ≤ estimate counts (teleportPattern stateLabel))
          .ok ⟨sourceNode, destinationNode, bits, true⟩

/-- Modelled from the spec: the seven states of the NV-Center Entanglement
Protocol state machine (EIP-001). -/
inductive NVState
  | SpinInit
  | DrivenDynamicalDecoupling
  | PhotonInjection
  | ConditionalRouting
  | HeraldedMeasurement
  | PulseControl
  | NetworkExtension
deriving DecidableEq

/-- Modelled from the spec: the outcome of executing one state of the NV
protocol — advance to the next state, finish the attempt, or abort it. -/
inductive NVStepResult
  | next (s : NVState)
  | finish
  | abort
deriving DecidableEq

/-- Modelled from the spec: one state transition of the strictly sequential
NV state machine.  Only HeraldedMeasurement can terminate the attempt
early: it performs the Hong-Ou-Mandel-style coincidence check, whose
modeled outcome is supplied as `heraldOk`; every other state advances to
its unique successor, and NetworkExtension finishes the attempt. -/
def nvStep (heraldOk : Bool) : NVState → NVStepResult
  | .SpinInit => .next .DrivenDynamicalDecoupling
  | .DrivenDynamicalDecoupling => .next .PhotonInjection
  | .PhotonInjection => .next .ConditionalRouting
  | .ConditionalRouting => .next .HeraldedMeasurement
  | .HeraldedMeasurement => if heraldOk then .next .PulseControl else .abort
  | .PulseControl => .next .NetworkExtension
  | .NetworkExtension => .finish

/-- Modelled from the spec: run the NV state machine from a given state,
recording the visited states in order; `true` means the attempt reached its
final state, `false` that it was aborted.  The fuel argument bounds the
walk (seven states suffice from SpinInit). -/
def runAttemptFrom (heraldOk : Bool) : Nat → NVState → List NVState × Bool
  | 0, s => ([s], false)
  | fuel + 1, s =>
      match nvStep heraldOk s with
      | .next s2 =>
          let r := runAttemptFrom heraldOk fuel s2
          (s :: r.1, r.2)
      | .finish => ([s], true)
      | .abort => ([s], false)

/-- Modelled from the spec: one full entanglement attempt, started from
SpinInit. -/
def runAttempt (heraldOk : Bool) : List NVState × Bool :=
  runAttemptFrom heraldOk 7 NVState.SpinInit

/-- Modelled from the spec: the bounded retry count, default 3. -/
def maxHeraldRetries : Nat := 3

/-- Modelled from the spec: attempts restart from SpinInit within the
bounded retry budget; each attempt consumes the next modeled herald
outcome, and overall Failure is declared once the budget is exhausted
without a herald success. -/
def runAttempts : List Bool → Nat → List (List NVState) × Bool
  | _, 0 => ([], false)
  | heralds, budget + 1 =>
      let a := runAttempt (heralds.headD false)
      if a.2 then ([a.1], true)
      else
        let r := runAttempts heralds.tail budget
        (a.1 :: r.1, r.2)

/-- Modelled from the spec: the NV-center entanglement protocol run — a
sequence of attempts bounded by the retry budget, ending in overall
Success or Failure.  The modeled herald outcomes (derived in the source
from the routing-loss probability) are supplied as an oracle list. -/
def runProtocol (heralds : List Bool) : List (List NVState) × Bool :=
  runAttempts heralds maxHeraldRetries

/-- Modelled from the spec: a fidelity value produced by the closed-form
physical simulation, derived deterministically from a seed. -/
def fidFromSeed (seed : Nat) : ℚ :=
  (lcgNext seed % 1000 : Nat) / 1000

/-- Modelled from the spec: `EntanglementAttempt` — the node pair, the
per-attempt state traces, the terminal Success/Failure outcome, and the
achieved fidelity (nullable until measured, set exactly on success). -/
structure EntanglementAttempt where
  nodeA : String
  nodeB : String
  traces : List (List NVState)
  success : Bool
  fidelity : Option ℚ

/-- Modelled from the spec: `createEntanglement(nodeA, nodeB,
targetFidelity) → EntanglementAttempt` — runs the Layer-0 closed-form
physical simulation (never calling the Backend Adapter) and returns an
attempt in a terminal state, carrying the achieved fidelity on herald
success.  `targetFidelity` (default 0.9) is the configured acceptance
reference; `heralds` and `seed` are the modeled physics oracles. -/
def createEntanglement (nodeA nodeB : String) (_targetFidelity : ℚ)
    (heralds : List Bool) (seed : Nat) : EntanglementAttempt :=
  let r := runProtocol heralds
  ⟨nodeA, nodeB, r.1, r.2, if r.2 then some (fidFromSeed seed) else none⟩

/-- The reference order of the seven NV protocol states, used to state the
temporal claim. -/
def nvOrder : List NVState :=
  [NVState.SpinInit, NVState.DrivenDynamicalDecoupling, NVState.PhotonInjection,
   NVState.ConditionalRouting, NVState.HeraldedMeasurement, NVState.PulseControl,
   NVState.NetworkExtension]

/-- The visited states of an attempt aborted at the herald check: the
strict prefix of the reference order ending at HeraldedMeasurement. -/
def nvAbortTrace : List NVState :=
  [NVState.SpinInit, NVState.DrivenDynamicalDecoupling, NVState.PhotonInjection,
   NVState.ConditionalRouting, NVState.HeraldedMeasurement]

/-- Whether `sub` is an initial segment of `hay` (character lists). -/
def hasPrefixOfChars : List Char → List Char → Bool
  | [], _ => true
  | _ :: _, [] => false
  | a :: as, b :: bs => a == b && hasPrefixOfChars as bs

/-- Whether `sub` occurs contiguously inside `hay` (character lists). -/
def includesChars : List Char → List Char → Bool
  | [], sub => sub.isEmpty
  | a :: rest, sub => hasPrefixOfChars sub (a :: rest) || includesChars rest sub

/-- JavaScript `String.prototype.includes`: substring containment. -/
def strIncludes (s sub : String) : Bool :=
  includesChars s.data sub.data

/-- Embeds `AI_AGENTS.aurora.generateResponse` from
`components/MultiAgentChat.js` (lines 15-27). -/
def auroraGenerateResponse (input : String) : String :=
  let lower := input.toLower
  if strIncludes lower "hello" || strIncludes lower "hi" || strIncludes lower "hey" then
    "Hello sweetie! I\x27m here to help with creative solutions and LUXBIN deployment. What\x27s on your mind?"
  else if strIncludes lower "luxbin" || strIncludes lower "token" || strIncludes lower "deploy" then
    "I specialize in LUXBIN token deployment and photonic contracts! I can help you:\n\n- Deploy LUXBIN tokens\n- Create photonic smart contracts\n- Translate messages to light particles\n\nWhat would you like to create?"
  else if strIncludes lower "quantum" || strIncludes lower "photonic" then
    "Quantum photonic computing is fascinating! We use light particles to encode blockchain data. Our creative approach combines artistic visualization with quantum security. Want me to explain more?"
  else
    "That\x27s a creative question about \"" ++ input ++ "\"! As Aurora, I blend artistic intuition with technical expertise. Let me think about how we can approach this creatively..."

/-- Embeds `AI_AGENTS.atlas.generateResponse` from
`components/MultiAgentChat.js` (lines 38-50). -/
def atlasGenerateResponse (input : String) : String :=
  let lower := input.toLower
  if strIncludes lower "hello" || strIncludes lower "hi" || strIncludes lower "hey" then
    "Greetings. I\x27m Atlas - your strategic AI companion. I provide:\n\n- Leadership and decisive guidance\n- Risk assessment and protection strategies\n- Strategic planning and tactical analysis\n\nHow can I assist you?"
  else if strIncludes lower "security" || strIncludes lower "threat" || strIncludes lower "protect" then
    "Security is my domain. The quantum network is protected by:\n\n- Multi-layer quantum encryption\n- Cross-country entanglement verification\n- Real-time threat detection (~98% accuracy)\n\nWhat security concern do you have?"
  else if strIncludes lower "strategy" || strIncludes lower "plan" || strIncludes lower "architecture" then
    "Strategic thinking requires clarity. Let me analyze:\n\n1. Identify the objective\n2. Assess available resources\n3. Map potential obstacles\n4. Execute with precision\n\nWhat\x27s your strategic goal?"
  else
    "I understand your inquiry about \"" ++ input ++ "\". Let\x27s approach this strategically. What specific aspect would you like me to analyze?"

/-- Embeds `AI_AGENTS.ian.generateResponse` from
`components/MultiAgentChat.js` (lines 61-73). -/
def ianGenerateResponse (input : String) : String :=
  let lower := input.toLower
  if strIncludes lower "hello" || strIncludes lower "hi" || strIncludes lower "hey" then
    "Hey there! I\x27m Ian - I handle communication security and LUXBIN translation. I can help you:\n\n- Translate messages to photonic format\n- Establish secure communication channels\n- Build trust through verified connections\n\nWhat would you like to communicate?"
  else if strIncludes lower "translate" || strIncludes lower "language" || strIncludes lower "message" then
    "Translation is my specialty! LUXBIN Light Language encodes messages using:\n\n- 11 photonic wavelengths\n- Color-based meaning (Red to Violet)\n- Quantum-secured transmission\n\nWant me to demonstrate a translation?"
  else if strIncludes lower "connect" || strIncludes lower "communication" || strIncludes lower "network" then
    "Connection established! Our quantum network spans:\n\n- 4 countries simultaneously\n- 12+ quantum computers\n- 654 total qubits\n\nAll secured with photonic protocols. How can I help you connect?"
  else
    "Great question about \"" ++ input ++ "\"! Communication is all about building bridges. Let me help you understand this better..."

/-- Embeds `AI_AGENTS.morgan.generateResponse` from
`components/MultiAgentChat.js` (lines 84-96). -/
def morganGenerateResponse (input : String) : String :=
  let lower := input.toLower
  if strIncludes lower "hello" || strIncludes lower "hi" || strIncludes lower "hey" then
    "Hello! I\x27m Morgan - your analytical AI companion. I specialize in:\n\n- Threat pattern recognition\n- Anomaly detection analytics\n- Predictive security modeling\n\nWhat data would you like me to analyze?"
  else if strIncludes lower "analyze" || strIncludes lower "data" || strIncludes lower "pattern" then
    "Analysis initiated! Our quantum network currently shows:\n\n- 654 qubits across 4 countries\n- ~98% threat detection accuracy\n- 6 cross-country entanglements\n- 11 photonic encodings per message\n\nWhat specific metrics interest you?"
  else if strIncludes lower "predict" || strIncludes lower "threat" || strIncludes lower "detect" then
    "Predictive models indicate:\n\n- Network health: Optimal\n- Threat level: Low\n- Quantum coherence: Stable\n- Photonic transmission: Active\n\nI\x27m continuously monitoring for anomalies. Any concerns?"
  else
    "Analyzing \"" ++ input ++ "\"... My models suggest this is an interesting inquiry. Let me provide data-driven insights..."

/-- The four AI agents of `components/MultiAgentChat.js` (`AI_AGENTS`). -/
inductive AgentId
  | aurora
  | atlas
  | ian
  | morgan
deriving DecidableEq

/-- Dispatch of `AI_AGENTS[agent].generateResponse`. -/
def generateResponse : AgentId → String → String
  | .aurora => auroraGenerateResponse
  | .atlas => atlasGenerateResponse
  | .ian => ianGenerateResponse
  | .morgan => morganGenerateResponse

/-- Message role in the chat transcript. -/
inductive MsgRole
  | user
  | assistant
deriving DecidableEq

/-- A chat message of `MultiAgentChat` (`id`, `role`, `content`,
`timestamp`), timestamps modelled as naturals. -/
structure ChatMessage where
  id : String
  role : MsgRole
  content : String
  timestamp : Nat
deriving DecidableEq

/-- The component state relevant to `handleSendMessage`: the per-agent
message lists, the input field, and the typing flag. -/
structure ChatState where
  messages : AgentId → List ChatMessage
  inputValue : String
  isTyping : Bool

/-- JavaScript `String.prototype.trim` over the character list: leading and
trailing whitespace removed. -/
def trimChars (l : List Char) : List Char :=
  ((l.dropWhile Char.isWhitespace).reverse.dropWhile Char.isWhitespace).reverse

/-- JavaScript `String.prototype.trim`. -/
def jsTrim (s : String) : String :=
  ⟨trimChars s.data⟩

/-- Embeds `handleSendMessage` from `components/MultiAgentChat.js` (lines
120-155), as the state transformation of one completed run: the guard
`!inputValue.trim() || isTyping` leaves the state untouched; otherwise the
user message (id `Date.now().toString()`, content the captured input) and
then the assistant message (id `(Date.now()+1).toString()`, content
generated from the captured input by the active agent) are appended to the
active agent's list, the input is cleared and the typing flag ends reset.
`Date.now()` is modelled by the `now` argument. -/
def handleSendMessage (activeAgent : AgentId) (now : Nat) (s : ChatState) : ChatState :=
  if jsTrim s.inputValue == "" || s.isTyping then s
  else
    let userMessage : ChatMessage := ⟨toString now, .user, s.inputValue, now⟩
    let currentInput := s.inputValue
    let aiResponse := generateResponse activeAgent currentInput
    let aiMessage : ChatMessage := ⟨toString (now + 1), .assistant, aiResponse, now⟩
    { messages := fun a =>
        if a = activeAgent then s.messages a ++ [userMessage, aiMessage]
        else s.messages a,
      inputValue := "",
      isTyping := false }

lemma matchedShots_le_totalShots (counts : OutcomeCounts) (pat : List Bool → Bool) :
    matchedShots counts pat ≤ totalShots counts := by
  induction counts with
  | nil => simp [matchedShots, totalShots]
  | cons hd tl ih =>
      cases h : pat hd.1 <;>
        simp [matchedShots, totalShots, List.filter_cons, h] at ih ⊢ <;>
        omega

/-- C5: the fidelity estimator is a pure function of its inputs; for every
input its value lies in [0,1] and equals the number of shots matching the
expected correlation pattern divided by the total number of shots. -/
theorem estimate_is_matching_fraction_in_unit_interval
    (counts : OutcomeCounts) (expectedPattern : List Bool → Bool) :
    0 ≤ estimate counts expectedPattern
  ∧ estimate counts expectedPattern ≤ 1
  ∧ estimate counts expectedPattern
      = (matchedShots counts expectedPattern : ℚ) / (totalShots counts : ℚ) := by
  refine ⟨div_nonneg (Nat.cast_nonneg _) (Nat.cast_nonneg _), ?_, rfl⟩
  rcases Nat.eq_zero_or_pos (totalShots counts) with h | h
  · simp [estimate, h]
  · rw [estimate, div_le_one (by exact_mod_cast h)]
    exact_mod_cast matchedShots_le_totalShots counts expectedPattern

lemma totalShots_addOutcome (counts : OutcomeCounts) (o : List Bool) :
    totalShots (addOutcome counts o) = totalShots counts + 1 := by
  induction counts with
  | nil => simp [addOutcome, totalShots]
  | cons hd tl ih =>
      obtain ⟨k, v⟩ := hd
      by_cases h : (k == o) = true <;>
        simp [addOutcome, h, totalShots] at ih ⊢ <;>
        omega

lemma totalShots_foldl_addOutcome (os : List (List Bool)) :
    ∀ acc : OutcomeCounts, totalShots (os.foldl addOutcome acc) = totalShots acc + os.length := by
  induction os with
  | nil => intro acc; simp
  | cons o rest ih =>
      intro acc
      simp [List.foldl, ih, totalShots_addOutcome]
      omega

lemma length_runShots (c : Circuit) (shots : Nat) :
    ∀ seed : Nat, (runShots c shots seed).length = shots := by
  induction shots with
  | zero => intro seed; simp [runShots]
  | succ n ih => intro seed; simp [runShots, ih]

/-- C7: for every submission to the simulator provider with a positive shot
count, the occurrence counts in the returned outcome-count mapping sum
exactly to the shot count. -/
theorem submit_counts_sum_to_shots (c : Circuit) (shots seed : Nat) (hpos : 0 < shots) :
    totalShots (submitSim c shots seed) = shots := by
  unfold submitSim tally
  rw [totalShots_foldl_addOutcome]
  simp [totalShots, length_runShots]

/-- C7 witness: a concrete 5-shot simulated Bell-circuit submission whose
counts sum to 5. -/
theorem submit_counts_sum_to_shots_witness :
    totalShots (submitSim (bellCircuit BellState.PhiPlus) 5 1) = 5 :=
  submit_counts_sum_to_shots (bellCircuit BellState.PhiPlus) 5 1 (by decide)

/-- C3: `createBellPair` passes exactly when the computed fidelity meets the
0.7 threshold, and a below-threshold fidelity still yields a returned
`BellPairResult` flagged failed, not an error. -/
theorem createBellPair_verdict_at_threshold (b : Backend) (st : BellState) :
    (∀ r : BellPairResult, createBellPair b st = .ok r →
        (r.passed = true ↔ bellFidelityThreshold ≤ r.fidelity))
  ∧ (∀ counts : OutcomeCounts,
        b.submitFn (bellCircuit st) defaultShotCount = .ok counts →
        estimate counts (bellPattern st) < bellFidelityThreshold →
        ∃ r : BellPairResult, createBellPair b st = .ok r ∧ r.passed = false) := by
  constructor
  · intro r hr
    unfold createBellPair at hr
    cases hsub : b.submitFn (bellCircuit st) defaultShotCount with
    | error e => rw [hsub] at hr; exact Except.noConfusion hr
    | ok counts =>
        rw [hsub] at hr
        injection hr with h
        subst h
        simp [decide_eq_true_eq]
  · intro counts hsub hlt
    refine ⟨⟨st, counts, estimate counts (bellPattern st),
             decide (bellFidelityThreshold ≤ estimate counts (bellPattern st))⟩, ?_, ?_⟩
    · unfold createBellPair
      rw [hsub]
    · exact decide_eq_false (not_le.mpr hlt)

lemma estimate_mismatch_below_threshold :
    estimate [([true, false], 4)] (bellPattern BellState.PhiPlus) < bellFidelityThreshold := by
  norm_num [estimate, matchedShots, totalShots, bellPattern, bellFidelityThreshold]

/-- C3 witness: against a backend returning purely anti-correlated counts,
`createBellPair` still returns a result, flagged failed, and the verdict of
a returned result is the threshold comparison. -/
theorem createBellPair_verdict_at_threshold_witness :
    (∃ r : BellPairResult,
        createBellPair (constBackend [([true, false], 4)]) BellState.PhiPlus = .ok r
      ∧ r.passed = false)
  ∧ ((⟨BellState.PhiPlus, [([true, false], 4)],
        estimate [([true, false], 4)] (bellPattern BellState.PhiPlus),
        decide (bellFidelityThreshold ≤ estimate [([true, false], 4)] (bellPattern BellState.PhiPlus))⟩
          : BellPairResult).passed = true
      ↔ bellFidelityThreshold
          ≤ estimate [([true, false], 4)] (bellPattern BellState.PhiPlus)) :=
  ⟨(createBellPair_verdict_at_threshold (constBackend [([true, false], 4)]) BellState.PhiPlus).2
      [([true, false], 4)] rfl estimate_mismatch_below_threshold,
   (createBellPair_verdict_at_threshold (constBackend [([true, false], 4)]) BellState.PhiPlus).1
      _ rfl⟩

/-- C8: with a fixed random seed on the simulator backend, any two
invocations of `createBellPair` with identical arguments produce identical
results, in particular byte-identical outcome-count distributions. -/
theorem createBellPair_two_run_deterministic (seed maxQ : Nat) (st : BellState)
    (r1 r2 : Except ProtocolError BellPairResult)
    (h1 : r1 = createBellPair (simBackend seed maxQ) st)
    (h2 : r2 = createBellPair (simBackend seed maxQ) st) :
    r1 = r2 := by
  rw [h1, h2]

/-- C8 witness: two identical seeded invocations at seed 1 coincide. -/
theorem createBellPair_two_run_deterministic_witness :
    createBellPair (simBackend 1 32) BellState.PhiPlus
      = createBellPair (simBackend 1 32) BellState.PhiPlus :=
  createBellPair_two_run_deterministic 1 32 BellState.PhiPlus _ _ rfl rfl

/-- C1: every `TeleportationResult` returned by `teleport` has its success
flag set to true, regardless of the outcome of the fidelity/distribution
check (no loss model is applied). -/
theorem teleport_always_reports_success (b : Backend)
    (stateLabel sourceNode destinationNode : String) (r : TeleportationResult)
    (h : teleport b stateLabel sourceNode destinationNode = .ok r) :
    r.success = true := by
  unfold teleport at h
  cases hbp : createBellPair b BellState.PhiPlus with
  | error e => rw [hbp] at h; exact Except.noConfusion h
  | ok bp =>
      rw [hbp] at h
      cases hsub : b.submitFn (teleportCircuit stateLabel) defaultShotCount with
      | error e => rw [hsub] at h; exact Except.noConfusion h
      | ok counts =>
          rw [hsub] at h
          injection h with h2
          subst h2
          rfl

/-- C1 witness: a concrete teleportation of the "plus" state over the
seeded simulator backend returns a result whose success flag is true. -/
theorem teleport_always_reports_success_witness :
    ∃ r : TeleportationResult,
      teleport (simBackend 1 32) "plus" "usa_node" "france_node" = .ok r
    ∧ r.success = true :=
  ⟨_, rfl,
   teleport_always_reports_success (simBackend 1 32) "plus" "usa_node" "france_node" _ rfl⟩

/-- C6: `createGHZState(1)` is rejected as invalid input, and a valid party
count exceeding the backend's max-qubit capability yields the
`CapacityExceeded` error with no backend submission performed. -/
theorem ghz_boundary_validation (b : Backend) (n : Nat) :
    createGHZState b 1 = (.error .InvalidInput, [])
  ∧ (2 ≤ n → b.maxQubits < n →
      createGHZState b n = (.error .CapacityExceeded, [])) := by
  constructor
  · rfl
  · intro h2 hcap
    unfold createGHZState
    rw [if_neg (by omega), if_pos hcap]

/-- C6 witness: on a 4-qubit backend, party count 1 is invalid input and
party count 9 is rejected as `CapacityExceeded` with no submission. -/
theorem ghz_boundary_validation_witness :
    createGHZState (simBackend 1 4) 1 = (.error .InvalidInput, [])
  ∧ createGHZState (simBackend 1 4) 9 = (.error .CapacityExceeded, []) :=
  ⟨(ghz_boundary_validation (simBackend 1 4) 9).1,
   (ghz_boundary_validation (simBackend 1 4) 9).2 (by decide) (by decide)⟩

/-- A Bell-pair result is terminal: pass with fidelity at or above the
threshold, or fail with fidelity below it — nothing in between. -/
def BellPairResult.terminal (r : BellPairResult) : Prop :=
  (bellFidelityThreshold ≤ r.fidelity ∧ r.passed = true)
  ∨ (r.fidelity < bellFidelityThreshold ∧ r.passed = false)

/-- A GHZ result is terminal: pass with fidelity at or above the threshold,
or fail with fidelity below it — nothing in between. -/
def GHZResult.terminal (r : GHZResult) : Prop :=
  (bellFidelityThreshold ≤ r.fidelity ∧ r.passed = true)
  ∨ (r.fidelity < bellFidelityThreshold ∧ r.passed = false)

/-- A teleportation result is terminal: its success flag is fully
determined (always set, per the documented design). -/
def TeleportationResult.terminal (r : TeleportationResult) : Prop :=
  r.success = true

/-- An entanglement attempt is terminal: Success carrying an achieved
fidelity, or Failure with no fidelity — never a partial state. -/
def EntanglementAttempt.terminal (a : EntanglementAttempt) : Prop :=
  (a.success = true ∧ a.fidelity.isSome = true)
  ∨ (a.success = false ∧ a.fidelity = none)

/-- A protocol return value is a typed error or a terminal result. -/
def exceptTerminal {α : Type} (t : α → Prop) : Except ProtocolError α → Prop
  | .error _ => True
  | .ok r => t r

/-- C2: every protocol invocation returns either a terminal-success result,
a terminal-failure result, or a typed error — no partial or ambiguous
result is ever returned by `createBellPair`, `createGHZState`, `teleport`
or `createEntanglement`. -/
theorem protocols_return_terminal_or_error (b : Backend) (st : BellState) (n : Nat)
    (stateLabel sourceNode destinationNode nodeA nodeB : String)
    (targetFidelity : ℚ) (heralds : List Bool) (seed : Nat) :
    exceptTerminal BellPairResult.terminal (createBellPair b st)
  ∧ exceptTerminal GHZResult.terminal (createGHZState b n).1
  ∧ exceptTerminal TeleportationResult.terminal
      (teleport b stateLabel sourceNode destinationNode)
  ∧ EntanglementAttempt.terminal (createEntanglement nodeA nodeB targetFidelity heralds seed) := by
  refine ⟨?_, ?_, ?_, ?_⟩
  · unfold createBellPair
    cases hsub : b.submitFn (bellCircuit st) defaultShotCount with
    | error e => exact trivial
    | ok counts =>
        show BellPairResult.terminal _
        by_cases h : bellFidelityThreshold ≤ estimate counts (bellPattern st)
        · exact Or.inl ⟨h, decide_eq_true h⟩
        · exact Or.inr ⟨not_le.mp h, decide_eq_false h⟩
  · unfold createGHZState
    by_cases h2 : n < 2
    · simp only [if_pos h2]
      exact trivial
    · rw [if_neg h2]
      by_cases hcap : b.maxQubits < n
      · rw [if_pos hcap]
        exact trivial
      · rw [if_neg hcap]
        cases hsub : b.submitFn (ghzCircuit n) (defaultShotCount * n) with
        | error e => exact trivial
        | ok counts =>
            show GHZResult.terminal _
            by_cases h : bellFidelityThreshold ≤ estimate counts (ghzPattern n)
            · exact Or.inl ⟨h, decide_eq_true h⟩
            · exact Or.inr ⟨not_le.mp h, decide_eq_false h⟩
  · unfold teleport
    cases hbp : createBellPair b BellState.PhiPlus with
    | error e => exact trivial
    | ok bp =>
        cases hsub : b.submitFn (teleportCircuit stateLabel) defaultShotCount with
        | error e => exact trivial
        | ok counts => exact rfl
  · unfold createEntanglement EntanglementAttempt.terminal
    cases h : (runProtocol heralds).2
    · right
      simp [h]
    · left
      simp [h]

lemma runAttempt_herald_success : runAttempt true = (nvOrder, true) := rfl

lemma runAttempt_herald_failure : runAttempt false = (nvAbortTrace, false) := rfl

lemma runAttempts_spec : ∀ (budget : Nat) (heralds : List Bool),
    (∀ tr ∈ (runAttempts heralds budget).1, tr = nvOrder ∨ tr = nvAbortTrace)
  ∧ (runAttempts heralds budget).1.length ≤ budget
  ∧ ((runAttempts heralds budget).2 = false →
       ∀ tr ∈ (runAttempts heralds budget).1, tr = nvAbortTrace) := by
  intro budget
  induction budget with
  | zero => intro heralds; simp [runAttempts]
  | succ b ih =>
      intro heralds
      obtain ⟨ihA, ihB, ihC⟩ := ih heralds.tail
      cases hh : heralds.headD false
      · simp only [runAttempts, hh, runAttempt_herald_failure]
        refine ⟨?_, ?_, ?_⟩
        · intro tr htr
          rcases List.mem_cons.mp htr with h | h
          · exact Or.inr h
          · exact ihA tr h
        · simpa using Nat.succ_le_succ ihB
        · intro hfail tr htr
          rcases List.mem_cons.mp htr with h | h
          · exact h
          · exact ihC hfail tr h
      · simp only [runAttempts, hh, runAttempt_herald_success]
        refine ⟨?_, ?_, ?_⟩
        · intro tr htr
          rcases List.mem_cons.mp htr with h | h
          · exact Or.inl h
          · simp at h
        · simp
        · intro hfail
          simp at hfail

/-- C4: every NV-protocol attempt visits the seven states strictly in the
canonical order — a herald success yields exactly the full ordered trace,
and the only early termination is a herald failure at HeraldedMeasurement,
whose trace is exactly the order's prefix ending there; attempts restart
from SpinInit within the bounded retry budget (default 3), and overall
Failure arises only with every attempt herald-aborted. -/
theorem nv_protocol_state_machine (heralds : List Bool) :
    runAttempt true = (nvOrder, true)
  ∧ runAttempt false = (nvAbortTrace, false)
  ∧ (∀ tr ∈ (runProtocol heralds).1, tr = nvOrder ∨ tr = nvAbortTrace)
  ∧ (runProtocol heralds).1.length ≤ maxHeraldRetries
  ∧ ((runProtocol heralds).2 = false →
       ∀ tr ∈ (runProtocol heralds).1, tr = nvAbortTrace) :=
  ⟨runAttempt_herald_success, runAttempt_herald_failure,
   (runAttempts_spec maxHeraldRetries heralds).1,
   (runAttempts_spec maxHeraldRetries heralds).2.1,
   (runAttempts_spec maxHeraldRetries heralds).2.2⟩

/-- C4 witness: the successful single-attempt run visits the full order,
and with three herald failures every attempt of the failed run aborted at
HeraldedMeasurement. -/
theorem nv_protocol_state_machine_witness :
    (nvOrder = nvOrder ∨ nvOrder = nvAbortTrace) ∧ nvAbortTrace = nvAbortTrace :=
  ⟨(nv_protocol_state_machine [true]).2.2.1 nvOrder (by decide),
   (nv_protocol_state_machine [false, false, false]).2.2.2.2 (by decide)
     nvAbortTrace (by decide)⟩

lemma strData_append (a b : String) : (a ++ b).data = a.data ++ b.data := by
  cases a
  cases b
  rfl

lemma appended_ne_empty (a b c : String) (ha : a.data ≠ []) : a ++ b ++ c ≠ "" := by
  intro hc
  have hd := congrArg String.data hc
  rw [strData_append, strData_append] at hd
  rcases List.append_eq_nil.mp hd with ⟨h1, _⟩
  rcases List.append_eq_nil.mp h1 with ⟨h2, _⟩
  exact ha h2

/-- C10: each agent's `generateResponse` is total on strings — for every
input it returns a defined, non-empty reply (the default branch
interpolates the input into a non-empty fallback sentence). -/
theorem generateResponse_total_nonempty (a : AgentId) (input : String) :
    generateResponse a input ≠ "" := by
  cases a <;>
    simp only [generateResponse, auroraGenerateResponse, atlasGenerateResponse,
      ianGenerateResponse, morganGenerateResponse] <;>
    (repeat' split) <;>
    first
      | decide
      | exact appended_ne_empty _ input _ (by decide)

/-- C9: one completed `handleSendMessage` on the active agent appends
exactly two messages to that agent's list — the user message first, then
the assistant message generated from the captured input — and leaves every
other agent's list unchanged; with an empty/whitespace-only input or while
a response is being generated, the state is not modified at all. -/
theorem handleSendMessage_appends_two_and_frames (activeAgent : AgentId) (now : Nat)
    (s : ChatState) :
    (¬(jsTrim s.inputValue = "" ∨ s.isTyping = true) →
       (handleSendMessage activeAgent now s).messages activeAgent
         = s.messages activeAgent
             ++ [⟨toString now, MsgRole.user, s.inputValue, now⟩,
                 ⟨toString (now + 1), MsgRole.assistant,
                  generateResponse activeAgent s.inputValue, now⟩]
     ∧ ∀ a : AgentId, a ≠ activeAgent →
         (handleSendMessage activeAgent now s).messages a = s.messages a)
  ∧ ((jsTrim s.inputValue = "" ∨ s.isTyping = true) →
       handleSendMessage activeAgent now s = s) := by
  constructor
  · intro h
    rcases not_or.mp h with ⟨hA, hB⟩
    have hA2 : (jsTrim s.inputValue == "") = false := beq_eq_false_iff_ne.mpr hA
    have hB2 : s.isTyping = false := by
      cases hst : s.isTyping
      · rfl
      · exact absurd hst hB
    have hguard : (jsTrim s.inputValue == "" || s.isTyping) = false := by
      rw [hA2, hB2]
      rfl
    constructor
    · simp [handleSendMessage, hguard]
    · intro a ha
      simp [handleSendMessage, hguard, ha]
  · intro h
    have hguard : (jsTrim s.inputValue == "" || s.isTyping) = true := by
      rcases h with hA | hB
      · simp [hA]
      · simp [hB]
    simp [handleSendMessage, hguard]

/-- C9 witness: from a blank transcript with input "hola", the completed
send appends the user/assistant pair to Aurora and leaves Atlas untouched;
with an empty input nothing changes. -/
theorem handleSendMessage_appends_two_and_frames_witness :
    (handleSendMessage AgentId.aurora 5 ⟨fun _ => [], "hola", false⟩).messages AgentId.aurora
        = [⟨toString (5 : Nat), MsgRole.user, "hola", 5⟩,
           ⟨toString (6 : Nat), MsgRole.assistant,
            generateResponse AgentId.aurora "hola", 5⟩]
  ∧ (handleSendMessage AgentId.aurora 5 ⟨fun _ => [], "hola", false⟩).messages AgentId.atlas = []
  ∧ handleSendMessage AgentId.aurora 5 ⟨fun _ => [], "", false⟩ = ⟨fun _ => [], "", false⟩ := by
  refine ⟨?_, ?_, ?_⟩
  · have h := ((handleSendMessage_appends_two_and_frames AgentId.aurora 5
        ⟨fun _ => [], "hola", false⟩).1 (by decide)).1
    simpa using h
  · exact ((handleSendMessage_appends_two_and_frames AgentId.aurora 5
        ⟨fun _ => [], "hola", false⟩).1 (by decide)).2 AgentId.atlas (by decide)
  · exact (handleSendMessage_appends_two_and_frames AgentId.aurora 5
        ⟨fun _ => [], "", false⟩).2 (Or.inl (by decide))

/-- C2 witness: the terminal-or-error invariant instantiated at the seeded
simulator backend and concrete protocol arguments. -/
theorem protocols_return_terminal_or_error_witness :
    exceptTerminal BellPairResult.terminal (createBellPair (simBackend 1 32) BellState.PhiPlus)
  ∧ exceptTerminal GHZResult.terminal (createGHZState (simBackend 1 32) 3).1
  ∧ exceptTerminal TeleportationResult.terminal
      (teleport (simBackend 1 32) "plus" "usa_node" "france_node")
  ∧ EntanglementAttempt.terminal
      (createEntanglement "usa_node" "france_node" (9/10) [true] 7) :=
  protocols_return_terminal_or_error (simBackend 1 32) BellState.PhiPlus 3
    "plus" "usa_node" "france_node" "usa_node" "france_node" (9/10) [true] 7

/-- C5 witness: the estimator contract instantiated at concrete counts and
a concrete expected pattern. -/
theorem estimate_is_matching_fraction_in_unit_interval_witness :
    0 ≤ estimate [([false, false], 3), ([true, false], 1)] (fun o => o == [false, false])
  ∧ estimate [([false, false], 3), ([true, false], 1)] (fun o => o == [false, false]) ≤ 1
  ∧ estimate [([false, false], 3), ([true, false], 1)] (fun o => o == [false, false])
      = (matchedShots [([false, false], 3), ([true, false], 1)] (fun o => o == [false, false]) : ℚ)
          / (totalShots [([false, false], 3), ([true, false], 1)] : ℚ) :=
  estimate_is_matching_fraction_in_unit_interval
    [([false, false], 3), ([true, false], 1)] (fun o => o == [false, false])

/-- C10 witness: the totality theorem instantiated at a concrete agent and
input. -/
theorem generateResponse_total_nonempty_witness :
    generateResponse AgentId.aurora "what is luxbin" ≠ "" :=
  generateResponse_total_nonempty AgentId.aurora "what is luxbin"
